import Mathlib

/-!
Shallow embedding of src/torchdpf/models/se2_baseline.py.

Tensors of shape (B, n) are embedded as functions Fin B → Fin n → α, and
similarly for higher ranks.  Exact arithmetic is used (ℚ for the purely
rational layers, ℝ where sigmoid / square roots occur); floating-point
special values (inf, nan) are modelled explicitly where a claim is about
them.  Fallible operations (constructors or forward passes that raise in
Python) return Except/Option.
-/

set_option linter.unusedVariables false

namespace TorchDPF

/-- Rectified linear unit, torch.nn.ReLU applied elementwise. -/
def relu {α : Type} [LinearOrderedField α] (x : α) : α := max x 0

/-- A torch.nn.Linear layer with in_features = nIn and out_features = nOut. -/
structure Linear (α : Type) (nIn nOut : ℕ) where
  weight : Fin nOut → Fin nIn → α
  bias : Fin nOut → α

/-- Forward pass of a Linear layer on one feature vector: W x + b. -/
def Linear.run {α : Type} [LinearOrderedField α] {nIn nOut : ℕ}
    (l : Linear α nIn nOut) (x : Fin nIn → α) (j : Fin nOut) : α :=
  (∑ k : Fin nIn, l.weight j k * x k) + l.bias j

/-- A torch.nn.Conv2d layer with square kernel k and stride s (the only
shape used by the source: k = 3, s = 2, padding same). -/
structure Conv2d (α : Type) (cIn cOut k s : ℕ) where
  weight : Fin cOut → Fin cIn → Fin k → Fin k → α
  bias : Fin cOut → α

/-- Output spatial size of a same-padded strided convolution: ceil(n / s).
This is the semantics the source intends (it is the TensorFlow rule the
original tu-rbo implementation uses; see c3 for what PyTorch itself does
with this combination). -/
abbrev convSameOut (n s : ℕ) : ℕ := (n + s - 1) / s

/-- Leading padding for same-padding: total = max ((out-1)*s + k - n) 0,
split with the smaller half first (Nat subtraction supplies the max). -/
def samePadBefore (n k s : ℕ) : ℕ :=
  ((convSameOut n s - 1) * s + k - n) / 2

/-- Read a feature map at a signed index, zero outside the bounds
(zero padding). -/
def padGet {α : Type} [LinearOrderedField α] {c h w : ℕ}
    (x : Fin c → Fin h → Fin w → α) (ch : Fin c) (i j : ℤ) : α :=
  if hi : 0 ≤ i ∧ i < (h : ℤ) then
    if hj : 0 ≤ j ∧ j < (w : ℤ) then
      x ch ⟨i.toNat, by omega⟩ ⟨j.toNat, by omega⟩
    else 0
  else 0

/-- Forward pass of a same-padded strided Conv2d on one image. -/
def Conv2d.run {α : Type} [LinearOrderedField α] {cIn cOut k s H W : ℕ}
    (c : Conv2d α cIn cOut k s) (x : Fin cIn → Fin H → Fin W → α)
    (o : Fin cOut) (i : Fin (convSameOut H s)) (j : Fin (convSameOut W s)) : α :=
  c.bias o + ∑ ch : Fin cIn, ∑ di : Fin k, ∑ dj : Fin k,
    c.weight o ch di dj *
      padGet x ch ((i : ℤ) * s + di - samePadBefore H k s)
                  ((j : ℤ) * s + dj - samePadBefore W k s)

/-- One conv-then-relu stage, the pattern x = self.relu(self.convN(x)) of
ObservationalEncoder.forward. -/
def convReluStage {α : Type} [LinearOrderedField α] {cIn cOut H W : ℕ}
    (c : Conv2d α cIn cOut 3 2) (x : Fin cIn → Fin H → Fin W → α) :
    Fin cOut → Fin (convSameOut H 2) → Fin (convSameOut W 2) → α :=
  fun o i j => relu (c.run x o i j)

/-- torch.nn.Dropout applied to a feature map: in training mode each entry
is kept (and rescaled by 1/(1-p)) or zeroed according to the Bernoulli
mask drawn from the global RNG (the mask is the explicit rng argument
here); in evaluation mode it is the identity. -/
def dropout {α : Type} [LinearOrderedField α] {c h w : ℕ} (p : α)
    (training : Bool) (mask : Fin c → Fin h → Fin w → Bool)
    (x : Fin c → Fin h → Fin w → α) : Fin c → Fin h → Fin w → α :=
  fun ch i j =>
    if training then (if mask ch i j then x ch i j / (1 - p) else 0)
    else x ch i j

/-- torch.nn.Flatten(start_dim=1) on one sample: row-major flattening of a
(c, h, w) feature map. -/
def flatten3 {α : Type} [LinearOrderedField α] {c h w : ℕ}
    (x : Fin c → Fin h → Fin w → α) (idx : Fin (c * (h * w))) : α :=
  x idx.divNat idx.modNat.divNat idx.modNat.modNat

/-- Logistic sigmoid, torch.nn.Sigmoid applied elementwise. -/
noncomputable def sigmoid (x : ℝ) : ℝ := 1 / (1 + Real.exp (-x))

/-! ## ObservationalEncoder (se2_baseline.py lines 14-74) -/

/-- Spatial size after the three stride-2 same-padded convolutions. -/
abbrev down8 (n : ℕ) : ℕ := convSameOut (convSameOut (convSameOut n 2) 2) 2

/-- Parameters of ObservationalEncoder: conv1 (in_channels→16), conv2
(16→32), conv3 (32→64), all 3x3 stride 2 padding same; dropout; fc with
in_features = 64 * (H//8) * (W//8) exactly as line 58 writes it, and
out_features = 128. -/
structure ObservationalEncoder (α : Type) (H W c : ℕ) where
  conv1 : Conv2d α c 16 3 2
  conv2 : Conv2d α 16 32 3 2
  conv3 : Conv2d α 32 64 3 2
  dropout_rate : α
  fc : Linear α (64 * (H / 8) * (W / 8)) 128

/-- The tensor ObservationalEncoder.forward returns (lines 65-74) when the
flattened width 64 * down8 H * down8 W matches the declared fc width
(heq); dropout's Bernoulli draws are the explicit mask argument, training
is the nn.Module training flag. -/
def ObservationalEncoder.forwardValue {α : Type} [LinearOrderedField α]
    {H W c B : ℕ} (m : ObservationalEncoder α H W c)
    (heq : 64 * (down8 H * down8 W) = 64 * (H / 8) * (W / 8))
    (training : Bool) (mask : Fin 64 → Fin (down8 H) → Fin (down8 W) → Bool)
    (x : Fin B → Fin c → Fin H → Fin W → α) : Fin B → Fin 128 → α :=
  fun b jo =>
    let x1 := convReluStage m.conv1 (x b)
    let x2 := convReluStage m.conv2 x1
    let x3 := convReluStage m.conv3 x2
    let xd := dropout m.dropout_rate training mask x3
    relu (m.fc.run (fun k => flatten3 xd (Fin.cast heq.symm k)) jo)

/-- ObservationalEncoder.forward: conv/relu stages, dropout, flatten, then
the fc layer; when the flattened width does not match the fc layer's
declared in_features torch raises a matmul shape error at line 72. -/
def ObservationalEncoder.forward {α : Type} [LinearOrderedField α]
    {H W c B : ℕ} (m : ObservationalEncoder α H W c) (training : Bool)
    (mask : Fin 64 → Fin (down8 H) → Fin (down8 W) → Bool)
    (x : Fin B → Fin c → Fin H → Fin W → α) :
    Except String (Fin B → Fin 128 → α) :=
  if heq : 64 * (down8 H * down8 W) = 64 * (H / 8) * (W / 8) then
    Except.ok (m.forwardValue heq training mask x)
  else
    Except.error "RuntimeError: mat1 and mat2 shapes cannot be multiplied"

/-! ## ObservationalLikelihoodEstimator (lines 76-114) -/

/-- Parameters of ObservationalLikelihoodEstimator: fc1 (in_features→128),
fc2 (128→128), fc3 (128→1), and the min_observation_likelihood floor
(default 0.004 at line 80). -/
structure ObservationalLikelihoodEstimator (nf : ℕ) where
  min_observation_likelihood : ℝ
  fc1 : Linear ℝ nf 128
  fc2 : Linear ℝ 128 128
  fc3 : Linear ℝ 128 1

/-- ObservationalLikelihoodEstimator.forward (lines 106-114): relu(fc1),
relu(fc2), sigmoid(fc3), then the rescaling of line 113.  The training
flag and the global RNG are part of every nn.Module call context; the
body of this forward uses neither. -/
noncomputable def ObservationalLikelihoodEstimator.forward {nf B : ℕ}
    (m : ObservationalLikelihoodEstimator nf) (training : Bool)
    (rng : ℕ → ℝ) (x : Fin B → Fin nf → ℝ) : Fin B → Fin 1 → ℝ :=
  fun b j =>
    let x1 := fun j1 => relu (m.fc1.run (x b) j1)
    let x2 := fun j2 => relu (m.fc2.run x1 j2)
    let x3 := sigmoid (m.fc3.run x2 j)
    x3 * (1 - m.min_observation_likelihood) + m.min_observation_likelihood

/-! ## ActionSampler (lines 117-191) -/

/-- Parameters of ActionSampler: fc1 ((action_dim+noise_dim)→32), fc2
(32→32), fc3 (32→state_dim); noise_dim defaults to action_dim when the
constructor argument is None (lines 132-135). -/
structure ActionSampler (α : Type) (action_dim state_dim noise_dim : ℕ) where
  fc1 : Linear α (action_dim + noise_dim) 32
  fc2 : Linear α 32 32
  fc3 : Linear α 32 state_dim

/-- ActionSampler.generate_motion_noise (lines 155-163): computes
fc1 → relu → fc2 → relu → fc3 on the input but has no return statement,
so the Python function returns None. -/
def ActionSampler.generate_motion_noise {α : Type} [LinearOrderedField α]
    {a s n B P : ℕ} (m : ActionSampler α a s n)
    (x : Fin B → Fin P → Fin (a + n) → α) :
    Option (Fin B → Fin P → Fin s → α) :=
  let x1 := fun (b : Fin B) (p : Fin P) (j : Fin 32) => relu (m.fc1.run (x b p) j)
  let x2 := fun (b : Fin B) (p : Fin P) (j : Fin 32) => relu (m.fc2.run (x1 b p) j)
  let x3 := fun (b : Fin B) (p : Fin P) => m.fc3.run (x2 b p)
  none

/-- Modelled from the spec: the value generate_motion_noise computes and,
per the defect note of spec section 4.3, is meant to return (the same
fc1 → relu → fc2 → relu → fc3 chain, with the missing return added). -/
def ActionSampler.motionNoiseValue {α : Type} [LinearOrderedField α]
    {a s n B P : ℕ} (m : ActionSampler α a s n)
    (x : Fin B → Fin P → Fin (a + n) → α) : Fin B → Fin P → Fin s → α :=
  let x1 := fun (b : Fin B) (p : Fin P) (j : Fin 32) => relu (m.fc1.run (x b p) j)
  let x2 := fun (b : Fin B) (p : Fin P) (j : Fin 32) => relu (m.fc2.run (x1 b p) j)
  fun b p => m.fc3.run (x2 b p)

/-- Line 186: delta -= delta.mean(dim=1, keepdim=True), the recentering of
the noise across the particle dimension. -/
def recenter {α : Type} [LinearOrderedField α] {B P d : ℕ}
    (delta : Fin B → Fin P → Fin d → α) : Fin B → Fin P → Fin d → α :=
  fun b p i => delta b p i - (∑ q : Fin P, delta b q i) / (P : α)

/-- ActionSampler.forward (lines 165-191).  The nominal actions have
shape (B, action_dim); randn_like draws noise of the same shape as the
expanded actions, and line 189 adds the (B, action_dim) actions to the
(B, P, state_dim) delta, so the call only shapes-out when
action_dim = state_dim = noise_dim (= d here, the default 3 = 3 = None).
particles is used only for its particle count P; randomInput is the
torch.randn_like draw from the global RNG.  Since generate_motion_noise
returns None, line 183 (delta.detach()) raises AttributeError; the
detach/recenter/add tail after the match embeds lines 183-191. -/
def ActionSampler.forward {d B P : ℕ} (m : ActionSampler ℚ d d d)
    (actions : Fin B → Fin d → ℚ) (stds : Fin B → ℚ)
    (particles : Fin B → Fin P → Fin d → ℚ)
    (randomInput : Fin B → Fin P → Fin d → ℚ) :
    Except String (Fin B → Fin P → Fin d → ℚ) :=
  let actions_normalized := fun (b : Fin B) (i : Fin d) => actions b i / stds b
  let actions_expanded := fun (b : Fin B) (_p : Fin P) => actions_normalized b
  let x := fun (b : Fin B) (p : Fin P) =>
    Fin.append (actions_expanded b p) (randomInput b p)
  match m.generate_motion_noise x with
  | none => Except.error "AttributeError: NoneType object has no attribute detach"
  | some delta0 =>
      let delta1 := delta0
      let delta := recenter delta1
      Except.ok (fun b p i => actions b i + delta b p i)

/-- Modelled from the spec: ActionSampler.forward as spec section 4.3
directs once generate_motion_noise returns its computed tensor — the same
normalize / expand / concatenate / noise-net / detach (identity on
values) / recenter / add pipeline of lines 165-191. -/
def ActionSampler.forwardFixed {d B P : ℕ} (m : ActionSampler ℚ d d d)
    (actions : Fin B → Fin d → ℚ) (stds : Fin B → ℚ)
    (particles : Fin B → Fin P → Fin d → ℚ)
    (randomInput : Fin B → Fin P → Fin d → ℚ) :
    Fin B → Fin P → Fin d → ℚ :=
  let actions_normalized := fun (b : Fin B) (i : Fin d) => actions b i / stds b
  let actions_expanded := fun (b : Fin B) (_p : Fin P) => actions_normalized b
  let x := fun (b : Fin B) (p : Fin P) =>
    Fin.append (actions_expanded b p) (randomInput b p)
  let delta0 := m.motionNoiseValue x
  let delta1 := delta0
  let delta := recenter delta1
  fun b p i => actions b i + delta b p i

/-! ## Floating-point special values for the stds division (line 167) -/

/-- An IEEE-style scalar: a finite value, a signed infinity (true = +inf),
or nan.  Only what the division of line 167 can produce is needed. -/
inductive FloatV where
  | val : ℚ → FloatV
  | inf : Bool → FloatV
  | nan : FloatV
deriving DecidableEq

/-- True exactly on finite values. -/
def FloatV.isFinite : FloatV → Bool
  | .val _ => true
  | _ => false

/-- IEEE-754 division of two finite scalars: x / 0 is a signed infinity
for x ≠ 0 and nan for x = 0; no exception is ever raised. -/
def divIEEE (x s : ℚ) : FloatV :=
  if s ≠ 0 then .val (x / s)
  else if x = 0 then .nan
  else .inf (decide (0 < x))

/-- Line 167, actions / stds[:, None], under floating-point semantics:
stds has shape (B,), broadcast against the (B, action_dim) actions. -/
def normalizeActionsIEEE {B a : ℕ} (actions : Fin B → Fin a → ℚ)
    (stds : Fin B → ℚ) : Fin B → Fin a → FloatV :=
  fun b i => divIEEE (actions b i) (stds b)

/-! ## DPF_SE2 (lines 6-12) -/

/-- The observable construction state of a torch.nn.Module after
nn.Module.__init__: registries of child modules and parameters, and the
training flag. -/
structure NNModuleState where
  submodules : List String
  parameters : List String
  training : Bool
deriving DecidableEq

/-- State produced by nn.Module.__init__: empty registries, training
mode on. -/
def nnModuleInit : NNModuleState :=
  { submodules := [], parameters := [], training := true }

/-- DPF_SE2.__init__ (lines 11-12): it only calls
super(DPF_SE2, self).__init__() and registers nothing. -/
def DPF_SE2.init : NNModuleState := nnModuleInit

/-! ## Construction (the __init__ bodies) -/

/-- Modelled from the spec: torchdpf.models.initializations, imported at
line 4, is not under src; per the spec the initializer draws every weight
from a zero-mean normal with standard deviation sqrt(2/(fan_in+fan_out))
(Xavier/Glorot normal).  The scale applied to the standard-normal
draws. -/
noncomputable def xavierStd (fanIn fanOut : ℕ) : ℝ :=
  Real.sqrt (2 / ((fanIn : ℝ) + (fanOut : ℝ)))

/-- A Linear layer after the Xavier-normal pass: each weight is a
standard-normal draw (the w stream) scaled by xavierStd; biases keep
their construction-time values (the b stream). -/
noncomputable def xavierLinear (nIn nOut : ℕ) (w : ℕ → ℕ → ℝ) (b : ℕ → ℝ) :
    Linear ℝ nIn nOut :=
  { weight := fun j k => xavierStd nIn nOut * w (j : ℕ) (k : ℕ)
    bias := fun j => b (j : ℕ) }

/-- nn.Conv2d construction: PyTorch (torch/nn/modules/conv.py, _ConvNd)
raises ValueError when padding=same is combined with any stride other
than 1, before any weight exists. -/
def mkConv2d (α : Type) (cIn cOut k stride : ℕ) (padSame : Bool)
    (weight : Fin cOut → Fin cIn → Fin k → Fin k → α) (bias : Fin cOut → α) :
    Except String (Conv2d α cIn cOut k stride) :=
  if padSame && (stride != 1) then
    Except.error "ValueError: padding=same is not supported for strided convolutions"
  else
    Except.ok { weight := weight, bias := bias }

/-- ObservationalEncoder.__init__ (lines 18-63): builds conv1, conv2,
conv3 (each 3x3, stride 2, padding same), dropout, flatten, fc, then
would run the Xavier pass; the wN/bN streams are the raw construction
draws of each layer.  The first nn.Conv2d call already raises. -/
noncomputable def mkObservationalEncoder (H W c : ℕ) (dropout_rate : ℝ)
    (w1 : Fin 16 → Fin c → Fin 3 → Fin 3 → ℝ) (b1 : Fin 16 → ℝ)
    (w2 : Fin 32 → Fin 16 → Fin 3 → Fin 3 → ℝ) (b2 : Fin 32 → ℝ)
    (w3 : Fin 64 → Fin 32 → Fin 3 → Fin 3 → ℝ) (b3 : Fin 64 → ℝ)
    (wf : ℕ → ℕ → ℝ) (bf : ℕ → ℝ) :
    Except String (ObservationalEncoder ℝ H W c) :=
  (mkConv2d ℝ c 16 3 2 true w1 b1).bind fun conv1 =>
  (mkConv2d ℝ 16 32 3 2 true w2 b2).bind fun conv2 =>
  (mkConv2d ℝ 32 64 3 2 true w3 b3).bind fun conv3 =>
  Except.ok
    { conv1 := conv1, conv2 := conv2, conv3 := conv3
      dropout_rate := dropout_rate
      fc := xavierLinear (64 * (H / 8) * (W / 8)) 128 wf bf }

/-- ObservationalLikelihoodEstimator.__init__ (lines 80-104): fc1, fc2,
fc3 are built (the wN/bN streams are their construction-time draws), but
line 104 then evaluates self.init_xavier_normal — a name that exists
only as the module-level import of line 4 and is never an attribute of
the instance, its class, or nn.Module — so nn.Module.__getattr__ raises
AttributeError and construction never completes. -/
def mkObservationalLikelihoodEstimator (nf : ℕ) (minL : ℝ)
    (w1 w2 w3 : ℕ → ℕ → ℝ) (b1 b2 b3 : ℕ → ℝ) :
    Except String (ObservationalLikelihoodEstimator nf) :=
  let fc1 : Linear ℝ nf 128 :=
    { weight := fun j k => w1 (j : ℕ) (k : ℕ), bias := fun j => b1 (j : ℕ) }
  let fc2 : Linear ℝ 128 128 :=
    { weight := fun j k => w2 (j : ℕ) (k : ℕ), bias := fun j => b2 (j : ℕ) }
  let fc3 : Linear ℝ 128 1 :=
    { weight := fun j k => w3 (j : ℕ) (k : ℕ), bias := fun j => b3 (j : ℕ) }
  Except.error
    "AttributeError: ObservationalLikelihoodEstimator object has no attribute init_xavier_normal"

/-- ActionSampler.__init__ (lines 121-153): noise_dim defaults to
action_dim when None; fc1, fc2, fc3 are built, but line 153 then
evaluates self.init_xavier_normal, the same nonexistent attribute, so
construction raises AttributeError and never completes. -/
def mkActionSampler (action_dim state_dim : ℕ)
    (noise_dim : Option ℕ) (w1 w2 w3 : ℕ → ℕ → ℝ) (b1 b2 b3 : ℕ → ℝ) :
    Except String (ActionSampler ℝ action_dim state_dim (noise_dim.getD action_dim)) :=
  let fc1 : Linear ℝ (action_dim + noise_dim.getD action_dim) 32 :=
    { weight := fun j k => w1 (j : ℕ) (k : ℕ), bias := fun j => b1 (j : ℕ) }
  let fc2 : Linear ℝ 32 32 :=
    { weight := fun j k => w2 (j : ℕ) (k : ℕ), bias := fun j => b2 (j : ℕ) }
  let fc3 : Linear ℝ 32 state_dim :=
    { weight := fun j k => w3 (j : ℕ) (k : ℕ), bias := fun j => b3 (j : ℕ) }
  Except.error
    "AttributeError: ActionSampler object has no attribute init_xavier_normal"

/-! ## Concrete instances used by witnesses and counterexample-style
evaluations -/

/-- An all-zero-weight ActionSampler with the default dims (3, 3, None). -/
def asZero : ActionSampler ℚ 3 3 3 :=
  { fc1 := { weight := fun _ _ => 0, bias := fun _ => 0 }
    fc2 := { weight := fun _ _ => 0, bias := fun _ => 0 }
    fc3 := { weight := fun _ _ => 0, bias := fun _ => 0 } }

/-- A concrete action batch (B = 1, action_dim = 3). -/
def aW5 : Fin 1 → Fin 3 → ℚ := fun _ _ => 1

/-- A concrete nonzero stds vector (B = 1). -/
def sW5 : Fin 1 → ℚ := fun _ => 2

/-- A concrete particle tensor (B = 1, P = 2, state_dim = 3). -/
def pW5 : Fin 1 → Fin 2 → Fin 3 → ℚ := fun _ _ _ => 0

/-- A concrete randn_like draw (B = 1, P = 2, noise_dim = 3). -/
def rW5 : Fin 1 → Fin 2 → Fin 3 → ℚ := fun _ _ _ => 0

/-- A concrete delta tensor (B = 1, P = 2, state_dim = 1). -/
def dW4 : Fin 1 → Fin 2 → Fin 1 → ℚ := fun _ p _ => if p = 0 then 3 else 7

/-- A concrete action batch (B = 1, action_dim = 1). -/
def aW4 : Fin 1 → Fin 1 → ℚ := fun _ _ => 5

/-- A concrete action batch for the stds-division claim. -/
def actsOne : Fin 1 → Fin 3 → ℚ := fun _ _ => 1

/-- A stds vector with a zero entry. -/
def stdsZero : Fin 1 → ℚ := fun _ => 0

/-- A stds vector with no zero entry. -/
def stdsTwo : Fin 1 → ℚ := fun _ => 2

/-- A Conv2d with all weights zero and a constant bias. -/
def convZeroQ (cIn cOut : ℕ) (bias : ℚ) : Conv2d ℚ cIn cOut 3 2 :=
  { weight := fun _ _ _ _ => 0, bias := fun _ => bias }

/-- A concrete 8x8 single-channel encoder: zero conv weights, conv3 bias
one, the default dropout rate 0.3, fc weights one. -/
def encC9 : ObservationalEncoder ℚ 8 8 1 :=
  { conv1 := convZeroQ 1 16 0
    conv2 := convZeroQ 16 32 0
    conv3 := convZeroQ 32 64 1
    dropout_rate := 3 / 10
    fc := { weight := fun _ _ => 1, bias := fun _ => 0 } }

/-- The flattened width matches the declared fc width at H = W = 8. -/
theorem heq8 : 64 * (down8 8 * down8 8) = 64 * (8 / 8) * (8 / 8) := rfl

/-- An all-keep dropout mask for the 8x8 encoder. -/
def mask8T : Fin 64 → Fin (down8 8) → Fin (down8 8) → Bool := fun _ _ _ => true

/-- An all-drop dropout mask for the 8x8 encoder. -/
def mask8F : Fin 64 → Fin (down8 8) → Fin (down8 8) → Bool := fun _ _ _ => false

/-- A concrete zero image batch (B = 1, c = 1, H = W = 8). -/
def xIn8 : Fin 1 → Fin 1 → Fin 8 → Fin 8 → ℚ := fun _ _ _ _ => 0

/-- A likelihood estimator with the default floor (in_features = 128,
min_observation_likelihood = 0.004) and all weights and biases zero. -/
noncomputable def oleDefault : ObservationalLikelihoodEstimator 128 :=
  { min_observation_likelihood := 4 / 1000
    fc1 := { weight := fun _ _ => 0, bias := fun _ => 0 }
    fc2 := { weight := fun _ _ => 0, bias := fun _ => 0 }
    fc3 := { weight := fun _ _ => 0, bias := fun _ => 0 } }

/-- A zero rng stream. -/
def rngZero : ℕ → ℝ := fun _ => 0

/-- A concrete zero feature batch (B = 1, 128 features). -/
def xInZero : Fin 1 → Fin 128 → ℝ := fun _ _ => 0

/-! ## Helper lemmas -/

/-- The recentered noise sums to zero along the particle axis. -/
lemma sum_recenter_zero {B P d : ℕ} (hP : 0 < P)
    (delta : Fin B → Fin P → Fin d → ℚ) (b : Fin B) (i : Fin d) :
    ∑ p : Fin P, recenter delta b p i = 0 := by
  have hPQ : (P : ℚ) ≠ 0 := Nat.cast_ne_zero.mpr hP.ne'
  simp only [recenter, Finset.sum_sub_distrib, Finset.sum_const,
    Finset.card_univ, Fintype.card_fin, nsmul_eq_mul]
  rw [mul_div_cancel₀ _ hPQ]
  exact sub_self _

/-- The sigmoid is positive. -/
lemma sigmoid_pos (x : ℝ) : 0 < sigmoid x := by
  unfold sigmoid
  have h := Real.exp_pos (-x)
  positivity

/-- The sigmoid is below one. -/
lemma sigmoid_lt_one (x : ℝ) : sigmoid x < 1 := by
  unfold sigmoid
  have h := Real.exp_pos (-x)
  rw [div_lt_one (by linarith)]
  linarith

/-- The rescaling of line 113 maps (0,1) into (mn, 1). -/
lemma rescale_bounds (y mn : ℝ) (hy0 : 0 < y) (hy1 : y < 1)
    (h0 : 0 < mn) (h1 : mn ≤ 1) :
    mn ≤ y * (1 - mn) + mn ∧ y * (1 - mn) + mn ≤ 1 ∧ y * (1 - mn) + mn ≠ 0 := by
  have hm : 0 ≤ 1 - mn := by linarith
  have hlo : 0 ≤ y * (1 - mn) := mul_nonneg hy0.le hm
  have hhi : y * (1 - mn) ≤ 1 - mn := by nlinarith
  refine ⟨by linarith, by linarith, ?_⟩
  have : 0 < y * (1 - mn) + mn := by linarith
  exact this.ne'

/-- A zero-weight conv stage outputs relu of its bias everywhere. -/
lemma convReluStage_zeroW {cIn cOut H W : ℕ} (bias : ℚ)
    (x : Fin cIn → Fin H → Fin W → ℚ) :
    convReluStage (convZeroQ cIn cOut bias) x = fun _ _ _ => relu bias := by
  funext o i j
  simp [convReluStage, convZeroQ, Conv2d.run]

/-! ## Claim theorems -/

/-- Claim C1: ActionSampler.generate_motion_noise computes the
fc1 → relu → fc2 → relu → fc3 output but does not return it (it returns
None), so the delta bound in ActionSampler.forward is not a usable
tensor and every forward call fails fatally with the AttributeError of
line 183 — no call completes with a shaped tensor. -/
theorem c1_forward_always_fails {d B P : ℕ} (m : ActionSampler ℚ d d d)
    (xin : Fin B → Fin P → Fin (d + d) → ℚ)
    (actions : Fin B → Fin d → ℚ) (stds : Fin B → ℚ)
    (particles : Fin B → Fin P → Fin d → ℚ)
    (randomInput : Fin B → Fin P → Fin d → ℚ) :
    m.generate_motion_noise xin = none ∧
      m.forward actions stds particles randomInput =
        Except.error "AttributeError: NoneType object has no attribute detach" :=
  ⟨rfl, rfl⟩

/-- Claim C4: after the recentering of line 186, the mean across the
particle axis of the noise term — the output of line 189 minus the
broadcast nominal action — is exactly zero for every sample and state
dimension (exact arithmetic). -/
theorem c4_recentered_noise_mean_zero {B P d : ℕ} (hP : 0 < P)
    (delta : Fin B → Fin P → Fin d → ℚ) (actions : Fin B → Fin d → ℚ)
    (b : Fin B) (i : Fin d) :
    (∑ p : Fin P, ((actions b i + recenter delta b p i) - actions b i))
        / (P : ℚ) = 0 := by
  have h : ∀ p : Fin P,
      (actions b i + recenter delta b p i) - actions b i =
        recenter delta b p i := fun p => add_sub_cancel_left _ _
  rw [Finset.sum_congr rfl (fun p _ => h p), sum_recenter_zero hP delta b i,
    zero_div]

/-- Witness for C4 at B = 1, P = 2, d = 1 with concrete tensors. -/
theorem c4_witness :
    0 < 2 ∧
      (∑ p : Fin 2, ((aW4 0 0 + recenter dW4 0 p 0) - aW4 0 0))
          / ((2 : ℕ) : ℚ) = 0 :=
  ⟨by decide, c4_recentered_noise_mean_zero (by decide) dW4 aW4 0 0⟩

/-- Claim C5 (code bug): the claim says ActionSampler.forward returns the
broadcast nominal action plus the zero-mean delta, with the particle
mean of the output equal to the normalized-then-rescaled nominal action;
on the source, forward instead raises (first conjunct evaluates it at a
concrete input).  The second conjunct proves the claimed property for
the spec-directed forwardFixed. -/
theorem c5_forward_mean_equals_nominal :
    asZero.forward aW5 sW5 pW5 rW5 =
        Except.error "AttributeError: NoneType object has no attribute detach" ∧
      ∀ (d B P : ℕ) (m : ActionSampler ℚ d d d)
        (actions : Fin B → Fin d → ℚ) (stds : Fin B → ℚ)
        (particles : Fin B → Fin P → Fin d → ℚ)
        (randomInput : Fin B → Fin P → Fin d → ℚ),
        0 < P → (∀ b, stds b ≠ 0) →
        ∀ (b : Fin B) (i : Fin d),
          (∑ p : Fin P,
              m.forwardFixed actions stds particles randomInput b p i)
              / (P : ℚ) = (actions b i / stds b) * stds b := by
  constructor
  · rfl
  · intro d B P m actions stds particles randomInput hP hstds b i
    have hPQ : (P : ℚ) ≠ 0 := Nat.cast_ne_zero.mpr hP.ne'
    simp only [ActionSampler.forwardFixed]
    rw [Finset.sum_add_distrib, sum_recenter_zero hP _ b i, add_zero,
      Finset.sum_const, Finset.card_univ, Fintype.card_fin, nsmul_eq_mul,
      mul_div_cancel_left₀ _ hPQ, div_mul_cancel₀ _ (hstds b)]

/-- Witness for C5 at B = 1, P = 2, d = 3 with concrete tensors. -/
theorem c5_witness :
    0 < 2 ∧ sW5 0 ≠ 0 ∧
      (∑ p : Fin 2, asZero.forwardFixed aW5 sW5 pW5 rW5 0 p 0)
          / ((2 : ℕ) : ℚ) = (aW5 0 0 / sW5 0) * sW5 0 :=
  ⟨by decide, by decide,
    c5_forward_mean_equals_nominal.2 3 1 2 asZero aW5 sW5 pW5 rW5
      (by decide) (by decide) 0 0⟩

/-- Claim C7: the division by stds at line 167 has no zero guard: when
every stds entry is nonzero all normalized entries are finite, while a
zero stds entry yields a non-finite entry (here +inf) that the total
function silently propagates instead of raising. -/
theorem c7_normalize_no_zero_guard :
    (∀ (B a : ℕ) (actions : Fin B → Fin a → ℚ) (stds : Fin B → ℚ),
        (∀ b, stds b ≠ 0) →
        ∀ (b : Fin B) (i : Fin a),
          (normalizeActionsIEEE actions stds b i).isFinite = true) ∧
      stdsZero 0 = 0 ∧
      normalizeActionsIEEE actsOne stdsZero 0 0 = FloatV.inf true ∧
      (normalizeActionsIEEE actsOne stdsZero 0 0).isFinite = false := by
  refine ⟨?_, rfl, by decide, by decide⟩
  intro B a actions stds h b i
  simp [normalizeActionsIEEE, divIEEE, h b, FloatV.isFinite]

/-- Witness for C7 at a concrete all-nonzero stds vector. -/
theorem c7_witness :
    stdsTwo 0 ≠ 0 ∧
      (normalizeActionsIEEE actsOne stdsTwo 0 0).isFinite = true :=
  ⟨by decide, c7_normalize_no_zero_guard.1 1 3 actsOne stdsTwo (by decide) 0 0⟩

/-- Claim C8: DPF_SE2.__init__ only invokes the nn.Module base
constructor: the resulting module state is exactly the base state, with
no sub-modules and no parameters registered. -/
theorem c8_dpf_se2_unwired :
    DPF_SE2.init = nnModuleInit ∧ DPF_SE2.init.submodules = [] ∧
      DPF_SE2.init.parameters = [] :=
  ⟨rfl, rfl, rfl⟩

/-- Claim C2: for every input, every entry the likelihood estimator
returns lies in the closed interval from min_observation_likelihood to
one — the raw sigmoid output is rescaled by line 113 — and whenever the
floor is positive (as the default 0.004 is) the output is never exactly
zero. -/
theorem c2_likelihood_in_range {nf B : ℕ}
    (m : ObservationalLikelihoodEstimator nf)
    (h0 : 0 < m.min_observation_likelihood)
    (h1 : m.min_observation_likelihood ≤ 1)
    (training : Bool) (rng : ℕ → ℝ) (x : Fin B → Fin nf → ℝ)
    (b : Fin B) (j : Fin 1) :
    m.min_observation_likelihood ≤ m.forward training rng x b j ∧
      m.forward training rng x b j ≤ 1 ∧
      m.forward training rng x b j ≠ 0 := by
  obtain ⟨ha, hb, hc⟩ :=
    rescale_bounds
      (sigmoid (m.fc3.run
        (fun j2 => relu (m.fc2.run
          (fun j1 => relu (m.fc1.run (x b) j1)) j2)) j))
      m.min_observation_likelihood (sigmoid_pos _) (sigmoid_lt_one _) h0 h1
  exact ⟨ha, hb, hc⟩

/-- Witness for C2 at the default floor 0.004 and a concrete zero
input. -/
theorem c2_witness :
    (0 : ℝ) < oleDefault.min_observation_likelihood ∧
      oleDefault.min_observation_likelihood ≤ 1 ∧
      ((4 / 1000 : ℝ) ≤ oleDefault.forward false rngZero xInZero 0 0 ∧
        oleDefault.forward false rngZero xInZero 0 0 ≤ 1 ∧
        oleDefault.forward false rngZero xInZero 0 0 ≠ 0) := by
  have h0 : (0 : ℝ) < oleDefault.min_observation_likelihood := by
    norm_num [oleDefault]
  have h1 : oleDefault.min_observation_likelihood ≤ 1 := by
    norm_num [oleDefault]
  obtain ⟨ha, hb, hc⟩ :=
    c2_likelihood_in_range oleDefault h0 h1 false rngZero xInZero 0 0
  exact ⟨h0, h1, ha, hb, hc⟩

/-- Claim C6 (code bug): the claim says all three modules apply the
Xavier-normal pass and construction then completes successfully; on the
source no construction ever completes: ObservationalEncoder.__init__
raises ValueError at its first nn.Conv2d (padding same with stride 2)
before any initialization, and ObservationalLikelihoodEstimator.__init__
and ActionSampler.__init__ raise AttributeError at
self.apply(self.init_xavier_normal) — init_xavier_normal exists only as
the module-level import of line 4 and is never an attribute of the
instance, its class, or nn.Module — so the Xavier pass is never applied
anywhere. -/
theorem c6_construction_and_xavier :
    (∀ (H W c : ℕ) (dr : ℝ)
        (w1 : Fin 16 → Fin c → Fin 3 → Fin 3 → ℝ) (b1 : Fin 16 → ℝ)
        (w2 : Fin 32 → Fin 16 → Fin 3 → Fin 3 → ℝ) (b2 : Fin 32 → ℝ)
        (w3 : Fin 64 → Fin 32 → Fin 3 → Fin 3 → ℝ) (b3 : Fin 64 → ℝ)
        (wf : ℕ → ℕ → ℝ) (bf : ℕ → ℝ),
        mkObservationalEncoder H W c dr w1 b1 w2 b2 w3 b3 wf bf =
          Except.error
            "ValueError: padding=same is not supported for strided convolutions") ∧
      (∀ (nf : ℕ) (minL : ℝ) (w1 w2 w3 : ℕ → ℕ → ℝ) (b1 b2 b3 : ℕ → ℝ),
        mkObservationalLikelihoodEstimator nf minL w1 w2 w3 b1 b2 b3 =
          Except.error
            "AttributeError: ObservationalLikelihoodEstimator object has no attribute init_xavier_normal") ∧
      (∀ (a s : ℕ) (nd : Option ℕ) (w1 w2 w3 : ℕ → ℕ → ℝ) (b1 b2 b3 : ℕ → ℝ),
        mkActionSampler a s nd w1 w2 w3 b1 b2 b3 =
          Except.error
            "AttributeError: ActionSampler object has no attribute init_xavier_normal") :=
  ⟨fun _ _ _ _ _ _ _ _ _ _ _ _ => rfl,
    fun _ _ _ _ _ _ _ _ => rfl,
    fun _ _ _ _ _ _ _ _ _ => rfl⟩

/-- Claim C3 (code bug): the claim says ObservationalEncoder(H, W, c)
constructs successfully for 8-divisible H and W; on the source, PyTorch
rejects padding=same with stride 2, so construction raises for every H,
W, c (first conjunct).  The second conjunct proves the rest of the
claim under the intended same-padding semantics: for 8-divisible H and
W the three stride-2 stages downsample to H/8 and W/8, the flattened
width matches the declared fc width 64 * (H//8) * (W//8), and the
forward pass returns a (B, 128) tensor in both modes. -/
theorem c3_encoder_construction_raises :
    (∀ (H W c : ℕ) (dr : ℝ)
        (w1 : Fin 16 → Fin c → Fin 3 → Fin 3 → ℝ) (b1 : Fin 16 → ℝ)
        (w2 : Fin 32 → Fin 16 → Fin 3 → Fin 3 → ℝ) (b2 : Fin 32 → ℝ)
        (w3 : Fin 64 → Fin 32 → Fin 3 → Fin 3 → ℝ) (b3 : Fin 64 → ℝ)
        (wf : ℕ → ℕ → ℝ) (bf : ℕ → ℝ),
        mkObservationalEncoder H W c dr w1 b1 w2 b2 w3 b3 wf bf =
          Except.error
            "ValueError: padding=same is not supported for strided convolutions") ∧
      ∀ (H W : ℕ), 8 ∣ H → 8 ∣ W →
        down8 H = H / 8 ∧ down8 W = W / 8 ∧
        ∀ (c B : ℕ) (m : ObservationalEncoder ℚ H W c) (training : Bool)
          (mask : Fin 64 → Fin (down8 H) → Fin (down8 W) → Bool)
          (x : Fin B → Fin c → Fin H → Fin W → ℚ),
          ∃ y, m.forward training mask x = Except.ok y := by
  constructor
  · intro H W c dr w1 b1 w2 b2 w3 b3 wf bf
    rfl
  · intro H W hH hW
    have e1 : down8 H = H / 8 := by
      obtain ⟨mH, rfl⟩ := hH
      simp only [down8, convSameOut]
      omega
    have e2 : down8 W = W / 8 := by
      obtain ⟨mW, rfl⟩ := hW
      simp only [down8, convSameOut]
      omega
    refine ⟨e1, e2, ?_⟩
    intro c B m training mask x
    have heq : 64 * (down8 H * down8 W) = 64 * (H / 8) * (W / 8) := by
      rw [e1, e2]; ring
    refine ⟨m.forwardValue heq training mask x, ?_⟩
    unfold ObservationalEncoder.forward
    rw [dif_pos heq]

/-- Witness for C3 at H = W = 8 with the concrete encoder encC9. -/
theorem c3_witness :
    down8 8 = 8 / 8 ∧ ∃ y, encC9.forward true mask8T xIn8 = Except.ok y := by
  obtain ⟨e1, e2, hf⟩ :=
    c3_encoder_construction_raises.2 8 8 ⟨1, rfl⟩ ⟨1, rfl⟩
  exact ⟨e1, hf 1 1 encC9 true mask8T xIn8⟩

/-- The all-keep training-mode dropout of encC9 rescales a constant-one
map to 10/7. -/
lemma dropout_encC9_true :
    dropout encC9.dropout_rate true mask8T (fun _ _ _ => (1 : ℚ)) =
      fun _ _ _ => 10 / 7 := by
  funext ch i j
  norm_num [dropout, mask8T, encC9]

/-- The all-drop training-mode dropout of encC9 zeroes a constant-one
map. -/
lemma dropout_encC9_false :
    dropout encC9.dropout_rate true mask8F (fun _ _ _ => (1 : ℚ)) =
      fun _ _ _ => 0 := by
  funext ch i j
  simp [dropout, mask8F]

/-- Flattening a constant map gives the constant. -/
lemma flatten3_const (v : ℚ) :
    (fun k => flatten3 (fun _ _ _ => v) (Fin.cast heq8.symm k)) =
      fun _ : Fin (64 * (8 / 8) * (8 / 8)) => v := by
  funext k
  simp [flatten3]

/-- The all-one fc layer of encC9 sums a constant input. -/
lemma encC9_fc_const (v : ℚ) :
    encC9.fc.run (fun _ => v) 0 = 64 * v := by
  simp [encC9, Linear.run, Finset.sum_const, Finset.card_univ, mul_comm]

/-- encC9's training-mode output at the all-keep mask. -/
lemma encC9_value_true :
    encC9.forwardValue heq8 true mask8T xIn8 0 0 = 640 / 7 := by
  simp only [ObservationalEncoder.forwardValue]
  rw [show xIn8 0 = (fun _ _ _ => (0 : ℚ)) from rfl,
    show encC9.conv1 = convZeroQ 1 16 0 from rfl, convReluStage_zeroW,
    show relu (0 : ℚ) = 0 from by norm_num [relu],
    show encC9.conv2 = convZeroQ 16 32 0 from rfl, convReluStage_zeroW,
    show relu (0 : ℚ) = 0 from by norm_num [relu],
    show encC9.conv3 = convZeroQ 32 64 1 from rfl, convReluStage_zeroW,
    show relu (1 : ℚ) = 1 from by norm_num [relu],
    dropout_encC9_true, flatten3_const, encC9_fc_const]
  norm_num [relu]

/-- encC9's training-mode output at the all-drop mask. -/
lemma encC9_value_false :
    encC9.forwardValue heq8 true mask8F xIn8 0 0 = 0 := by
  simp only [ObservationalEncoder.forwardValue]
  rw [show xIn8 0 = (fun _ _ _ => (0 : ℚ)) from rfl,
    show encC9.conv1 = convZeroQ 1 16 0 from rfl, convReluStage_zeroW,
    show relu (0 : ℚ) = 0 from by norm_num [relu],
    show encC9.conv2 = convZeroQ 16 32 0 from rfl, convReluStage_zeroW,
    show relu (0 : ℚ) = 0 from by norm_num [relu],
    show encC9.conv3 = convZeroQ 32 64 1 from rfl, convReluStage_zeroW,
    show relu (1 : ℚ) = 1 from by norm_num [relu],
    dropout_encC9_false, flatten3_const, encC9_fc_const]
  norm_num [relu]

/-- Claim C9: ObservationalLikelihoodEstimator.forward uses no dropout
and no randomness, so for fixed weights two calls on the same input
agree exactly, whatever the training flag or RNG state — unlike
ObservationalEncoder, whose training-mode output depends on the dropout
draws (second conjunct: two masks, two different outputs). -/
theorem c9_likelihood_deterministic :
    (∀ (nf B : ℕ) (m : ObservationalLikelihoodEstimator nf)
        (t1 t2 : Bool) (r1 r2 : ℕ → ℝ) (x : Fin B → Fin nf → ℝ),
        m.forward t1 r1 x = m.forward t2 r2 x) ∧
      encC9.forwardValue heq8 true mask8T xIn8 0 0 ≠
        encC9.forwardValue heq8 true mask8F xIn8 0 0 := by
  constructor
  · intro nf B m t1 t2 r1 r2 x
    rfl
  · rw [encC9_value_true, encC9_value_false]
    norm_num

/-- Claim C10: every entry of the feature vector
ObservationalEncoder.forward returns is nonnegative, because the final
fc output passes through relu before being returned (line 72). -/
theorem c10_encoder_output_nonneg {H W c B : ℕ}
    (m : ObservationalEncoder ℚ H W c)
    (heq : 64 * (down8 H * down8 W) = 64 * (H / 8) * (W / 8))
    (training : Bool) (mask : Fin 64 → Fin (down8 H) → Fin (down8 W) → Bool)
    (x : Fin B → Fin c → Fin H → Fin W → ℚ) (b : Fin B) (j : Fin 128) :
    0 ≤ m.forwardValue heq training mask x b j := by
  simp only [ObservationalEncoder.forwardValue, relu]
  exact le_max_right _ _

/-- Witness for C10 at the concrete 8x8 encoder in evaluation mode. -/
theorem c10_witness : 0 ≤ encC9.forwardValue heq8 false mask8T xIn8 0 0 :=
  c10_encoder_output_nonneg encC9 heq8 false mask8T xIn8 0 0

end TorchDPF
